import Mathlib

/-!
Verification of the `delegate` library (rosbacke/delegate, file
`include/delegate/delegate.hpp`).

The library stores a callable as two machine words: the address of a
compile-time generated adapter ("trampoline") function and one opaque data
word.  We embed the mechanism shallowly:

* Machine addresses are natural numbers; `0` plays the role of `nullptr`.
* `DataPtr` is the one-word union of the source.  Its two members
  (`v_ptr : void*` and `fkn_ptr : R(*)(Args...)`) are two views of the same
  pointer-sized word, so in the model the union holds a single `Word`; a read
  of either member yields that word, and comparing either member compares the
  word.  The `fkn`-branching of `DataPtr::equal` / `DataPtr::less` is kept to
  mirror the source.
* Adapter functions are identified by their code address.  An `Env` describes
  the ambient program after linking: the addresses of the two distinguished
  adapters `doNullCB` and `DataPtr::doRuntimeFkn` (distinct functions have
  distinct addresses, hence the `nullCB_ne_runtimeFkn` field), the behaviour
  of every other (template-generated) adapter, and the behaviour of each free
  function reachable through a runtime function pointer.  Target behaviour is
  a function of a world `σ` (the mutable memory at call time), making
  snapshot-vs-reference semantics expressible.
* `adapterSem` dispatches an adapter address exactly as the source call does:
  the body of `doNullCB` returns `nullReturnFunction<R>()`, i.e. a
  default-constructed result, the body of `doRuntimeFkn` calls through the
  function pointer kept in the data word, and every other address dispatches
  to the adapter code of the program.

Definitions translate the first (primary) header variant of the source;
namespace `V2` below translates the second variant (the one at lines
1040-1949 of the concatenated source), whose `set(TargetFreeCB)` and
`make(TargetFreeCB)` differ from the primary variant.
-/

namespace Delegate

/-- One machine word: a code or data address. `0` is `nullptr`. -/
abbrev Word := Nat

/-- The one-word union `details::common::DataPtr`.  `v_ptr` and `fkn_ptr`
overlay the same storage, so the model keeps the single stored word. -/
structure DataPtr where
  word : Word
deriving DecidableEq, Repr

/-- Default-constructed `DataPtr`: member initializer `void* v_ptr = nullptr`. -/
def DataPtr.nullInit : DataPtr := ⟨0⟩

/-- `DataPtr::equal(Trampoline fkn, lhs, rhs)`:
`fkn == doRuntimeFkn ? lhs.fkn_ptr == rhs.fkn_ptr : lhs.v_ptr == rhs.v_ptr`.
`runtimeFkn` is the address of `doRuntimeFkn`; both union members read the
stored word. -/
def DataPtr.equal (runtimeFkn : Word) (fkn : Word) (lhs rhs : DataPtr) : Bool :=
  if fkn = runtimeFkn then lhs.word == rhs.word else lhs.word == rhs.word

/-- `DataPtr::less(Trampoline fkn, lhs, rhs)`:
`fkn == doRuntimeFkn ? lhs.fkn_ptr < rhs.fkn_ptr : lhs.v_ptr < rhs.v_ptr`. -/
def DataPtr.less (runtimeFkn : Word) (fkn : Word) (lhs rhs : DataPtr) : Bool :=
  if fkn = runtimeFkn then lhs.word < rhs.word else lhs.word < rhs.word

/-- `details::common::FknStore`: the two-word state of a delegate, an adapter
address `m_fkn` and the opaque data word `m_data`. -/
structure FknStore where
  m_fkn : Word
  m_data : DataPtr
deriving DecidableEq, Repr

/-- The ambient program, as fixed by compilation and linking, for one
delegate signature `R(Args...)` with world type `σ`, argument-tuple type `α`
and result type `ρ`.  `code` gives the behaviour of each template-generated
adapter at its address; `fkns` gives the behaviour of the free function
stored at each code address (for runtime function-pointer dispatch). -/
structure Env (σ α ρ : Type) where
  nullCB : Word
  runtimeFkn : Word
  nullCB_ne_runtimeFkn : nullCB ≠ runtimeFkn
  code : Word → DataPtr → σ → α → ρ
  fkns : Word → σ → α → ρ

variable {σ α ρ : Type}

/-- Behaviour of the adapter at address `ad`.  The two distinguished
adapters have the bodies given in the source: `doNullCB` returns
`nullReturnFunction<R>()` (a default-constructed result, ignoring both data
and arguments), and `DataPtr::doRuntimeFkn` reads the function pointer out of
the data word and calls through it. -/
def adapterSem [Inhabited ρ] (e : Env σ α ρ) (ad : Word) : DataPtr → σ → α → ρ :=
  if ad = e.nullCB then fun _ _ _ => default
  else if ad = e.runtimeFkn then fun d s a => e.fkns d.word s a
  else e.code ad

/-- `FknStore()` (default constructor): `m_fkn = &doNullCB`, `m_data`
default-constructed. -/
def FknStore.init (e : Env σ α ρ) : FknStore := ⟨e.nullCB, DataPtr.nullInit⟩

/-- `FknStore(FknPtr ptr)`: `m_fkn(ptr ? &DataPtr::doRuntimeFkn : &doNullCB),
m_data(ptr)`. -/
def FknStore.ofFknPtr (e : Env σ α ρ) (ptr : Word) : FknStore :=
  ⟨if ptr ≠ 0 then e.runtimeFkn else e.nullCB, ⟨ptr⟩⟩

/-- `FknStore::null()`: `m_fkn == &doNullCB`. -/
def FknStore.null (e : Env σ α ρ) (st : FknStore) : Bool :=
  st.m_fkn == e.nullCB

/-- `details::common::equal(lhs, rhs)`:
`lhs.m_fkn == rhs.m_fkn && DataPtr::equal(lhs.m_fkn, lhs.m_data, rhs.m_data)`. -/
def FknStore.equal (e : Env σ α ρ) (lhs rhs : FknStore) : Bool :=
  lhs.m_fkn == rhs.m_fkn &&
    DataPtr.equal e.runtimeFkn lhs.m_fkn lhs.m_data rhs.m_data

/-- `details::common::less(lhs, rhs)`:
`(lhs.null() && !rhs.null()) || lhs.m_fkn < rhs.m_fkn ||
 (lhs.m_fkn == rhs.m_fkn && DataPtr::less(lhs.m_fkn, lhs.m_data, rhs.m_data))`. -/
def FknStore.less (e : Env σ α ρ) (lhs rhs : FknStore) : Bool :=
  (lhs.null e && !(rhs.null e)) || lhs.m_fkn < rhs.m_fkn ||
    (lhs.m_fkn == rhs.m_fkn &&
      DataPtr.less e.runtimeFkn lhs.m_fkn lhs.m_data rhs.m_data)

/-- `delegate::operator()(Args...)`: `m_data.m_fkn(m_data.m_data, args...)`,
performed in the world `s` current at call time. -/
def call [Inhabited ρ] (e : Env σ α ρ) (st : FknStore) (s : σ) (a : α) : ρ :=
  adapterSem e st.m_fkn st.m_data s a

/-- `delegate::clear()`: `m_data = FknStore{}`. -/
def clear (e : Env σ α ρ) (_st : FknStore) : FknStore := FknStore.init e

/-- `operator==(delegate, nullptr)` (and the mirrored overload): `lhs.null()`. -/
def eqNullptr (e : Env σ α ρ) (st : FknStore) : Bool := st.null e

/-- `delegate& set<fkn>()` for a compile-time free function:
`m_data = FknStore(&doFreeCB<fkn>, nullptr)`.  `adFree` is the address the
linker gave the instantiation `doFreeCB<fkn>`. -/
def setFreeCB (_st : FknStore) (adFree : Word) : FknStore := ⟨adFree, ⟨0⟩⟩

/-- `static delegate make<fkn>()`: `delegate{&doFreeCB<fkn>, nullptr}`. -/
def makeFreeCB (adFree : Word) : FknStore := ⟨adFree, ⟨0⟩⟩

/-- `delegate& set<T, memFkn>(T& tr)`:
`m_data = FknStore(&doMemberCB<T, memFkn>, static_cast<void*>(&tr))`.
`adMem` is the address of the instantiation `doMemberCB<T, memFkn>` (or
`doConstMemberCB`), `objAddr` the address of the bound object. -/
def setMember (_st : FknStore) (adMem objAddr : Word) : FknStore :=
  ⟨adMem, ⟨objAddr⟩⟩

/-- `static delegate make<T, memFkn>(T& o)`:
`delegate{&doMemberCB<T, memFkn>, &o}`. -/
def makeMember (adMem objAddr : Word) : FknStore := ⟨adMem, ⟨objAddr⟩⟩

/-- `delegate& set<T>(T& tr)` for a functor:
`m_data = FknStore(&doFunctor<T>, static_cast<void*>(&tr))`. -/
def setFunctor (_st : FknStore) (adFunctor objAddr : Word) : FknStore :=
  ⟨adFunctor, ⟨objAddr⟩⟩

/-- `static delegate make<T>(T& o)` for a functor:
`delegate{&doFunctor<T>, &o}`. -/
def makeFunctor (adFunctor objAddr : Word) : FknStore := ⟨adFunctor, ⟨objAddr⟩⟩

/-- `delegate& set(FknPtr fkn)` (also `operator=(FknPtr)`):
`m_data = FknStore(fkn)`. -/
def setFknPtr (e : Env σ α ρ) (_st : FknStore) (ptr : Word) : FknStore :=
  FknStore.ofFknPtr e ptr

/-- `static delegate make(FknPtr fkn)`: `delegate{fkn}`, whose constructor
initializes `m_data(fkn)`, i.e. `FknStore(fkn)`. -/
def makeFknPtr (e : Env σ α ρ) (ptr : Word) : FknStore :=
  FknStore.ofFknPtr e ptr

/-- `mem_fkn` (via `mem_fkn_base`): stores only the trampoline address
`fknPtr`, default-initialized to `&doNullCB`. -/
structure MemFkn where
  fknPtr : Word
deriving DecidableEq, Repr

/-- `mem_fkn()` default constructor: `fknPtr = common::doNullCB`. -/
def MemFkn.init (e : Env σ α ρ) : MemFkn := ⟨e.nullCB⟩

/-- `mem_fkn_base::null()`: `fknPtr == common::doNullCB`. -/
def MemFkn.null (e : Env σ α ρ) (f : MemFkn) : Bool := f.fknPtr == e.nullCB

/-- `mem_fkn<T,false,...>::make<memFkn>()`:
`mem_fkn{&doMemberCB<T, memFkn>}`.  `adMem` is the address of that
instantiation. -/
def MemFkn.make (adMem : Word) : MemFkn := ⟨adMem⟩

/-- `mem_fkn::invoke(o, args...)`:
`Base::fknPtr(DataPtr{static_cast<void*>(&o)}, args...)` — calls the stored
trampoline on the address of the object, in the world current at call time. -/
def MemFkn.invoke [Inhabited ρ] (e : Env σ α ρ) (f : MemFkn) (objAddr : Word)
    (s : σ) (a : α) : ρ :=
  adapterSem e f.fknPtr ⟨objAddr⟩ s a

/-- `delegate& set(mem_fkn<T,...> const& f, T& o)`:
`m_data = FknStore(f.ptr(), static_cast<void*>(&o))`. -/
def setMemFknObj (_st : FknStore) (f : MemFkn) (objAddr : Word) : FknStore :=
  ⟨f.fknPtr, ⟨objAddr⟩⟩

/-- `static delegate make(mem_fkn<T,...> f, T& o)`:
`delegate{f.ptr(), &o}`. -/
def makeMemFknObj (f : MemFkn) (objAddr : Word) : FknStore :=
  ⟨f.fknPtr, ⟨objAddr⟩⟩

end Delegate

namespace V2

/-!
The second header variant in the source (lines 1040-1949 of the concatenated
file).  Its delegate state is the same pair `{m_cb, m_ptr}` of an adapter
address and a data word, and `null()` is `m_cb == &common::doNullCB`, so we
reuse `Delegate.FknStore` and `Delegate.Env`.  Only the operations that
differ from the primary variant are translated here.
-/

open Delegate

variable {σ α ρ : Type}

/-- Variant-2 `delegate(TargetFreeCB fkn)` constructor:
`m_cb(fkn == nullptr ? &common::doNullCB : &doRuntimeFkn), m_ptr(fkn)`. -/
def ctorFknPtr (e : Env σ α ρ) (ptr : Word) : FknStore :=
  ⟨if ptr = 0 then e.nullCB else e.runtimeFkn, ⟨ptr⟩⟩

/-- Variant-2 `delegate& set(TargetFreeCB fkn)`:
`m_cb = &doRuntimeFkn; m_ptr.fkn_ptr = fkn;` — no null check on `fkn`. -/
def setFknPtr (e : Env σ α ρ) (_st : FknStore) (ptr : Word) : FknStore :=
  ⟨e.runtimeFkn, ⟨ptr⟩⟩

/-- Variant-2 `static delegate make(TargetFreeCB fkn)` (and `make_fkn`):
`delegate{&doRuntimeFkn, fkn}` — no null check on `fkn`. -/
def makeFknPtr (e : Env σ α ρ) (ptr : Word) : FknStore :=
  ⟨e.runtimeFkn, ⟨ptr⟩⟩

end V2

namespace Delegate

variable {σ α ρ : Type}

/-- The equality relation as worded by the spec: the adapter addresses are
equal and, when the shared adapter is the runtime-dispatch adapter, the
stored function-pointer values are equal, otherwise the stored data
addresses are equal.  (Both union members occupy the one data word.) -/
def specEqual (e : Env σ α ρ) (x y : FknStore) : Prop :=
  x.m_fkn = y.m_fkn ∧
    (if x.m_fkn = e.runtimeFkn then x.m_data.word = y.m_data.word
     else x.m_data.word = y.m_data.word)

/-- A minimal concrete linking used by witnesses: `doNullCB` at address 1,
`doRuntimeFkn` at address 2; worlds, arguments and results are trivial. -/
def envU : Env Unit Unit Unit where
  nullCB := 1
  runtimeFkn := 2
  nullCB_ne_runtimeFkn := by decide
  code := fun _ _ _ _ => ()
  fkns := fun _ _ _ => ()

/-- A concrete linking in which the null adapter does NOT get the lowest
code address: `doNullCB` at address 5, `doRuntimeFkn` at 6, leaving room for
a generated adapter at address 3. -/
def envLess : Env Unit Unit Unit where
  nullCB := 5
  runtimeFkn := 6
  nullCB_ne_runtimeFkn := by decide
  code := fun _ _ _ _ => ()
  fkns := fun _ _ _ => ()

/-- A concrete program over an integer heap, for the call-transparency
witness.  The world maps each object address to the integer field of the
object living there.  Adapter addresses: 1 = `doNullCB`, 2 = `doRuntimeFkn`,
3 = `doFreeCB<freeAdd5>`, 4 = `doMemberCB<Obj, add>` (reads the field of the
bound object at call time and adds the argument), 8 = `doFunctor<Mul>`
(multiplies the field by the argument).  The free function at code address 7
doubles its argument. -/
def envInt : Env (Word → Int) Int Int where
  nullCB := 1
  runtimeFkn := 2
  nullCB_ne_runtimeFkn := by decide
  code := fun ad d s a =>
    if ad = 3 then a + 5
    else if ad = 4 then s d.word + a
    else if ad = 8 then s d.word * a
    else 0
  fkns := fun w _ a => if w = 7 then a * 2 else 0

/-- A heap whose object at address 10 has field value 3. -/
def heapA : Word → Int := fun w => if w = 10 then 3 else 0

/-- The heap after mutating the field of the object at address 10 to 6. -/
def heapB : Word → Int := fun w => if w = 10 then 6 else 0

end Delegate

namespace Delegate

variable {σ α ρ T : Type}

/-- Both branches of the union read in `DataPtr::equal` compare the one
stored word. -/
theorem DataPtr.equal_eq_beq (rt fkn : Word) (l r : DataPtr) :
    DataPtr.equal rt fkn l r = (l.word == r.word) := by
  unfold DataPtr.equal
  exact ite_self _

/-- Characterization of `details::common::equal`: both stored words agree. -/
theorem FknStore.equal_iff (e : Env σ α ρ) (x y : FknStore) :
    FknStore.equal e x y = true ↔
      x.m_fkn = y.m_fkn ∧ x.m_data.word = y.m_data.word := by
  simp [FknStore.equal, DataPtr.equal_eq_beq]

/-- `details::common::equal` is reflexive. -/
theorem FknStore.equal_refl (e : Env σ α ρ) (x : FknStore) :
    FknStore.equal e x x = true := by
  simp [FknStore.equal_iff]

end Delegate

/-- Claim C2: a default-constructed delegate is null; calling it, with any
arguments and in any world, returns a default-constructed result (and, the
null adapter body being a constant function of neither world nor arguments,
has no effect); it compares equal to the null literal and equal to every
other default-constructed delegate of the same signature. -/
theorem C2_default_is_null_and_safe {σ α ρ : Type} [Inhabited ρ]
    (e : Delegate.Env σ α ρ) (s : σ) (a : α) :
    (Delegate.FknStore.init e).null e = true
    ∧ Delegate.call e (Delegate.FknStore.init e) s a = default
    ∧ Delegate.eqNullptr e (Delegate.FknStore.init e) = true
    ∧ Delegate.FknStore.equal e (Delegate.FknStore.init e)
        (Delegate.FknStore.init e) = true := by
  refine ⟨?_, ?_, ?_, ?_⟩
  · simp [Delegate.FknStore.init, Delegate.FknStore.null]
  · simp [Delegate.call, Delegate.adapterSem, Delegate.FknStore.init]
  · simp [Delegate.eqNullptr, Delegate.FknStore.init, Delegate.FknStore.null]
  · exact Delegate.FknStore.equal_refl e _

/-- Claim C4: `equal(a, b)` holds exactly when the stored adapter addresses
are equal and, the shared adapter being the runtime-dispatch one, the stored
function-pointer values are equal, otherwise the stored data addresses are
equal — the spec wording `specEqual`. -/
theorem C4_equal_characterization {σ α ρ : Type} (e : Delegate.Env σ α ρ)
    (x y : Delegate.FknStore) :
    Delegate.FknStore.equal e x y = true ↔ Delegate.specEqual e x y := by
  rw [Delegate.FknStore.equal_iff]
  unfold Delegate.specEqual
  rw [ite_self]

/-- Claim C7: every null-producing operation of the primary variant —
default construction, `clear()`, and binding a null runtime function
pointer — produces the very same state, whose data word is zero, so all
null instances compare equal. -/
theorem C7_null_states_agree {σ α ρ : Type} (e : Delegate.Env σ α ρ)
    (d d2 : Delegate.FknStore) :
    Delegate.clear e d = Delegate.FknStore.init e
    ∧ Delegate.FknStore.ofFknPtr e 0 = Delegate.FknStore.init e
    ∧ (Delegate.FknStore.init e).m_data.word = 0
    ∧ Delegate.FknStore.equal e (Delegate.clear e d)
        (Delegate.FknStore.ofFknPtr e 0) = true
    ∧ Delegate.FknStore.equal e (Delegate.clear e d)
        (Delegate.clear e d2) = true
    ∧ Delegate.FknStore.equal e (Delegate.FknStore.init e)
        (Delegate.FknStore.ofFknPtr e 0) = true := by
  have hof : Delegate.FknStore.ofFknPtr e 0 = Delegate.FknStore.init e := by
    simp [Delegate.FknStore.ofFknPtr, Delegate.FknStore.init,
      Delegate.DataPtr.nullInit]
  refine ⟨rfl, hof, rfl, ?_, ?_, ?_⟩
  · rw [hof]; exact Delegate.FknStore.equal_refl e _
  · exact Delegate.FknStore.equal_refl e _
  · rw [hof]; exact Delegate.FknStore.equal_refl e _

/-- Claim C8: combining a member-function reference `f` with an object by
`set` or by the `make` factory yields a delegate whose call coincides with
`f.invoke(o, args...)` in every world, and which is null exactly when `f`
is null. -/
theorem C8_memfkn_combination_refines_invoke {σ α ρ : Type} [Inhabited ρ]
    (e : Delegate.Env σ α ρ) (d0 : Delegate.FknStore) (f : Delegate.MemFkn)
    (objAddr : Delegate.Word) (s : σ) (a : α) :
    Delegate.call e (Delegate.setMemFknObj d0 f objAddr) s a
      = Delegate.MemFkn.invoke e f objAddr s a
    ∧ Delegate.call e (Delegate.makeMemFknObj f objAddr) s a
      = Delegate.MemFkn.invoke e f objAddr s a
    ∧ (Delegate.setMemFknObj d0 f objAddr).null e = Delegate.MemFkn.null e f
    ∧ (Delegate.makeMemFknObj f objAddr).null e = Delegate.MemFkn.null e f :=
  ⟨rfl, rfl, rfl, rfl⟩

/-- Claim C10: each `set` overload overwrites the previous binding wholesale:
the state after `set` does not depend on the prior state and coincides (as a
state, hence under `equal`) with the state built by the corresponding `make`
factory from the same arguments. -/
theorem C10_set_independent_of_prior_state {σ α ρ : Type}
    (e : Delegate.Env σ α ρ) (d d2 : Delegate.FknStore)
    (adFree adMem objAddr adFun funAddr p : Delegate.Word)
    (f : Delegate.MemFkn) :
    Delegate.setFreeCB d adFree = Delegate.makeFreeCB adFree
    ∧ Delegate.setFreeCB d adFree = Delegate.setFreeCB d2 adFree
    ∧ Delegate.setMember d adMem objAddr = Delegate.makeMember adMem objAddr
    ∧ Delegate.setMember d adMem objAddr = Delegate.setMember d2 adMem objAddr
    ∧ Delegate.setFunctor d adFun funAddr = Delegate.makeFunctor adFun funAddr
    ∧ Delegate.setFknPtr e d p = Delegate.makeFknPtr e p
    ∧ Delegate.setFknPtr e d p = Delegate.setFknPtr e d2 p
    ∧ Delegate.setMemFknObj d f objAddr = Delegate.makeMemFknObj f objAddr
    ∧ Delegate.FknStore.equal e (Delegate.setFreeCB d adFree)
        (Delegate.makeFreeCB adFree) = true
    ∧ Delegate.FknStore.equal e (Delegate.setFknPtr e d p)
        (Delegate.makeFknPtr e p) = true
    ∧ Delegate.FknStore.equal e (Delegate.setMember d adMem objAddr)
        (Delegate.makeMember adMem objAddr) = true :=
  ⟨rfl, rfl, rfl, rfl, rfl, rfl, rfl, rfl,
    Delegate.FknStore.equal_refl e _, Delegate.FknStore.equal_refl e _,
    Delegate.FknStore.equal_refl e _⟩

/-- Claim C3, evaluated at the failing input: in the primary variant,
construction, `set`/assignment and the `make` factory all route a runtime
function pointer through `FknStore(FknPtr)`, so a null pointer yields the
null state; in the second header variant the converting constructor checks
for null but `set(TargetFreeCB)` and `make(TargetFreeCB)` do not — on a null
pointer they store the runtime-dispatch adapter with a zero data word, a
state that is not null and whose call dispatches through a null function
pointer. -/
theorem C3_v2_set_nullptr_not_null :
    (Delegate.FknStore.ofFknPtr Delegate.envU 0).null Delegate.envU = true
    ∧ (Delegate.setFknPtr Delegate.envU
        (Delegate.FknStore.init Delegate.envU) 0).null Delegate.envU = true
    ∧ (Delegate.makeFknPtr Delegate.envU 0).null Delegate.envU = true
    ∧ (V2.ctorFknPtr Delegate.envU 0).null Delegate.envU = true
    ∧ (V2.setFknPtr Delegate.envU
        (Delegate.FknStore.init Delegate.envU) 0).null Delegate.envU = false
    ∧ (V2.makeFknPtr Delegate.envU 0).null Delegate.envU = false
    ∧ (V2.setFknPtr Delegate.envU (Delegate.FknStore.init Delegate.envU)
        0).m_fkn = Delegate.envU.runtimeFkn
    ∧ (V2.setFknPtr Delegate.envU (Delegate.FknStore.init Delegate.envU)
        0).m_data.word = 0 := by
  decide

/-- Claim C5, evaluated at the failing input: under a linking that places a
generated adapter (address 3) below the null adapter (address 5), a null
delegate `n` and a non-null delegate `x` bound to that adapter satisfy both
`less(n, x)` and `less(x, n)`, so `less` is neither asymmetric nor a strict
total order, and a non-null delegate can be `less` than a null one. -/
theorem C5_less_both_directions :
    (Delegate.FknStore.init Delegate.envLess).null Delegate.envLess = true
    ∧ (Delegate.makeFreeCB 3).null Delegate.envLess = false
    ∧ Delegate.FknStore.less Delegate.envLess
        (Delegate.FknStore.init Delegate.envLess)
        (Delegate.makeFreeCB 3) = true
    ∧ Delegate.FknStore.less Delegate.envLess (Delegate.makeFreeCB 3)
        (Delegate.FknStore.init Delegate.envLess) = true := by
  decide

/-- Claim C6: `equal` is reflexive and symmetric; two delegates bound to the
same compile-time free function are equal; two bound to different free
functions (whose generated adapters `doFreeCB<f>`, `doFreeCB<g>` therefore
live at different addresses) are not equal; two bound to the same member
function on two distinct objects (distinct addresses) are not equal. -/
theorem C6_equal_algebra {σ α ρ : Type} (e : Delegate.Env σ α ρ)
    (x y : Delegate.FknStore) (d0 : Delegate.FknStore)
    (adF adG adM o1 o2 : Delegate.Word)
    (hFG : adF ≠ adG) (hoo : o1 ≠ o2) :
    Delegate.FknStore.equal e x x = true
    ∧ (Delegate.FknStore.equal e x y = true →
        Delegate.FknStore.equal e y x = true)
    ∧ Delegate.FknStore.equal e (Delegate.setFreeCB d0 adF)
        (Delegate.makeFreeCB adF) = true
    ∧ Delegate.FknStore.equal e (Delegate.makeFreeCB adF)
        (Delegate.makeFreeCB adG) = false
    ∧ Delegate.FknStore.equal e (Delegate.makeMember adM o1)
        (Delegate.makeMember adM o2) = false := by
  refine ⟨Delegate.FknStore.equal_refl e x, ?_,
    Delegate.FknStore.equal_refl e _, ?_, ?_⟩
  · intro h
    rw [Delegate.FknStore.equal_iff] at h ⊢
    exact ⟨h.1.symm, h.2.symm⟩
  · rcases Bool.eq_false_or_eq_true (Delegate.FknStore.equal e
      (Delegate.makeFreeCB adF) (Delegate.makeFreeCB adG)) with h | h
    · exact absurd ((Delegate.FknStore.equal_iff e _ _).mp h).1 hFG
    · exact h
  · rcases Bool.eq_false_or_eq_true (Delegate.FknStore.equal e
      (Delegate.makeMember adM o1) (Delegate.makeMember adM o2)) with h | h
    · exact absurd ((Delegate.FknStore.equal_iff e _ _).mp h).2 hoo
    · exact h

/-- Witness for C6, at the concrete linking `envU` with `doFreeCB`
instantiations at addresses 3 and 4, a member adapter at 8, and objects at
addresses 10 and 11. -/
theorem C6_equal_algebra_witness :
    ((3 : Delegate.Word) ≠ 4) ∧ ((10 : Delegate.Word) ≠ 11)
    ∧ Delegate.FknStore.equal Delegate.envU (Delegate.makeFreeCB 3)
        (Delegate.makeFreeCB 4) = false
    ∧ Delegate.FknStore.equal Delegate.envU (Delegate.makeMember 8 10)
        (Delegate.makeMember 8 11) = false :=
  ⟨by decide, by decide,
    (C6_equal_algebra Delegate.envU (Delegate.FknStore.init Delegate.envU)
      (Delegate.makeFreeCB 3) (Delegate.FknStore.init Delegate.envU)
      3 4 8 10 11 (by decide) (by decide)).2.2.2.1,
    (C6_equal_algebra Delegate.envU (Delegate.FknStore.init Delegate.envU)
      (Delegate.makeFreeCB 3) (Delegate.FknStore.init Delegate.envU)
      3 4 8 10 11 (by decide) (by decide)).2.2.2.2⟩

/-- Claim C1: for each of the four target kinds, calling the delegate gives
exactly what a direct call of the target gives in the world current at the
time of the call.  The compile-time free-function hypothesis `hf` states
that the instantiation `doFreeCB<f>` at address `adFree` calls `f`; likewise
`hm` is `doMemberCB<T, memFkn>` dereferencing the stored object address at
call time (so later heap mutation is visible — the binding itself takes no
world argument), and `hg` is the functor adapter `doFunctor<T>`.  The
runtime function pointer `p` dispatches to the free function linked at `p`. -/
theorem C1_call_transparency {σ α ρ T : Type} [Inhabited ρ]
    (e : Delegate.Env σ α ρ)
    (f : σ → α → ρ) (adFree : Delegate.Word)
    (hf1 : adFree ≠ e.nullCB) (hf2 : adFree ≠ e.runtimeFkn)
    (hf : ∀ d s a, e.code adFree d s a = f s a)
    (p : Delegate.Word) (hp : p ≠ 0)
    (read : σ → Delegate.Word → T) (m : T → α → ρ)
    (adMem objAddr : Delegate.Word)
    (hm1 : adMem ≠ e.nullCB) (hm2 : adMem ≠ e.runtimeFkn)
    (hm : ∀ d s a, e.code adMem d s a = m (read s d.word) a)
    (g : T → α → ρ) (adFun funAddr : Delegate.Word)
    (hg1 : adFun ≠ e.nullCB) (hg2 : adFun ≠ e.runtimeFkn)
    (hg : ∀ d s a, e.code adFun d s a = g (read s d.word) a) :
    (∀ s a, Delegate.call e (Delegate.makeFreeCB adFree) s a = f s a)
    ∧ (∀ s a, Delegate.call e (Delegate.FknStore.ofFknPtr e p) s a
        = e.fkns p s a)
    ∧ (∀ d0 s a, Delegate.call e (Delegate.setMember d0 adMem objAddr) s a
        = m (read s objAddr) a)
    ∧ (∀ d0 s a, Delegate.call e (Delegate.setFunctor d0 adFun funAddr) s a
        = g (read s funAddr) a) := by
  have hrn : e.runtimeFkn ≠ e.nullCB := (e.nullCB_ne_runtimeFkn).symm
  refine ⟨?_, ?_, ?_, ?_⟩
  · intro s a
    simp [Delegate.call, Delegate.adapterSem, Delegate.makeFreeCB,
      hf1, hf2, hf]
  · intro s a
    simp [Delegate.call, Delegate.adapterSem, Delegate.FknStore.ofFknPtr,
      hp, hrn]
  · intro d0 s a
    simp [Delegate.call, Delegate.adapterSem, Delegate.setMember,
      hm1, hm2, hm]
  · intro d0 s a
    simp [Delegate.call, Delegate.adapterSem, Delegate.setFunctor,
      hg1, hg2, hg]

/-- Witness for C1 over the concrete program `envInt`, including the worked
example of the spec: the object at address 10 has field 3, binding the `add`
member and calling with 3 gives 6; after the field is mutated to 6 (heap
`heapB`), the same delegate value called with 9 gives 15.  The compile-time
free function adds 5, the runtime pointer at code address 7 doubles, and the
functor at address 10 multiplies by its field. -/
theorem C1_call_transparency_witness :
    Delegate.call Delegate.envInt
      (Delegate.setMember (Delegate.FknStore.init Delegate.envInt) 4 10)
      Delegate.heapA 3 = 6
    ∧ Delegate.call Delegate.envInt
      (Delegate.setMember (Delegate.FknStore.init Delegate.envInt) 4 10)
      Delegate.heapB 9 = 15
    ∧ Delegate.call Delegate.envInt (Delegate.makeFreeCB 3)
      Delegate.heapA 1 = 6
    ∧ Delegate.call Delegate.envInt
      (Delegate.FknStore.ofFknPtr Delegate.envInt 7) Delegate.heapA 4 = 8
    ∧ Delegate.call Delegate.envInt
      (Delegate.setFunctor (Delegate.FknStore.init Delegate.envInt) 8 10)
      Delegate.heapB 7 = 42 := by
  have h := C1_call_transparency Delegate.envInt
    (fun _ a => a + 5) 3 (by decide) (by decide) (fun _ _ _ => rfl)
    7 (by decide)
    (fun s w => s w) (fun t a => t + a) 4 10 (by decide) (by decide)
    (fun _ _ _ => rfl)
    (fun t a => t * a) 8 10 (by decide) (by decide) (fun _ _ _ => rfl)
  exact ⟨(h.2.2.1 _ Delegate.heapA 3).trans (by decide),
    (h.2.2.1 _ Delegate.heapB 9).trans (by decide),
    (h.1 Delegate.heapA 1).trans (by decide),
    (h.2.1 Delegate.heapA 4).trans (by decide),
    (h.2.2.2 _ Delegate.heapB 7).trans (by decide)⟩
